import Mathlib

set_option maxRecDepth 100000

/-!
Verification development for the plum-web-assistant repository
(src/rag-extension/rag.py and src/rag-extension/main.py).

The stateful Python pipeline is shallowly embedded as pure Lean functions:
- external collaborators (network fetch, the HuggingFace embedding model,
  the FAISS search structure, the Groq LLM) are oracles carried in an `Env`
  record; the calls the Python code makes to them are recorded in an
  explicit effect trace (`Effect`);
- the persisted state (the url_mapping.json file, the per-uuid vector-store
  directories, and the uuid supply of uuid4) is an explicit `St` record
  threaded through the functions;
- Python exceptions raised by collaborator calls are modelled as
  `Except String` results of the corresponding oracle; the try/except
  blocks of the source become explicit matches on those results.

Opaque uuid4 identifiers are modelled as naturals drawn from a counter
(`St.nextUuid`); freshness of uuid4 is modelled by the counter bounding
every identifier already in the mapping.
-/

namespace Rag

/-- A conversation message, `{"role": ..., "content": ...}`. -/
structure Msg where
  role : String
  content : String
deriving DecidableEq, Repr

/-- langchain's `Document`: page content plus string metadata. -/
structure Document where
  page_content : String
  metadata : List (String × String)
deriving DecidableEq, Repr

/-- Outcome of the single HTTP GET issued by `web_parsing`.  On success the
HTML-to-text extraction and the title/description/language/domain metadata
collection are performed by library code (BeautifulSoup / urlparse), which
we abstract as the extracted `text` plus the extra metadata pairs; on a
transport-level failure (`requests.RequestException` / `httpx.HTTPError`)
the error message is carried. -/
inductive Fetched where
  | ok (text : String) (extraMeta : List (String × String))
  | transportErr (e : String)
deriving DecidableEq

/-- Observable collaborator calls made by the pipeline. -/
inductive Effect where
  | fetch (url : String)
  | buildStore (id : Nat)
  | loadStore (id : Nat)
  | llmRewrite
  | llmAnswer
deriving DecidableEq, Repr

/-- A value stored in the dictionaries `Rag.response` returns. -/
inductive Val where
  | str (s : String)
  | docs (ds : List Document)
  | msgs (ms : List Msg)
deriving DecidableEq

/-- The dictionaries `Rag.response` returns (string-keyed). -/
abbrev Dict := List (String × Val)

/-- The payload `Rag.response` receives from `main.get_response`:
`{"messages": {"message": [...]}, "url": ...}` flattened to its two
meaningful fields. -/
structure RagPayload where
  message : List Msg
  url : String

/-- The raw request body received at the HTTP boundary (main.py `Payload`
before validation). -/
structure RawPayload where
  messages : List Msg
  url : String

/-- Persistent state: the url_mapping.json content (`none` when the file is
missing or its JSON is corrupt, both of which the source treats as an empty
mapping), the set of uuids that have a persisted vector-store directory
under `data/`, and the uuid4 supply counter. -/
structure St where
  urlFile : Option (List (Nat × String))
  stores : List Nat
  nextUuid : Nat

/-- External collaborators of the pipeline. `embedErr` is the exception, if
any, that the embedding/FAISS calls inside `create_embeddings` would raise
(`create_embeddings` re-raises it after logging); `rewrite` is the
query-transform LLM call, `answerChain` the answer-synthesis LLM call, both
able to raise; `retrieve` is the FAISS similarity search (k = 3). -/
structure Env where
  fetch : String → Fetched
  embedErr : Option String
  groq_api_key : Option String
  rewrite : List Msg → Except String String
  retrieve : Nat → String → List Document
  answerChain : List Msg → List Document → Except String String

/-! ### Fixed user-facing answer strings of rag.py -/

def failRetrieveText : String := "Failed to retrieve content from this URL."

def noUrlAnswer : Dict :=
  [("answer", Val.str "Error: No URL was provided for context.")]

def noMessagesAnswer : Dict :=
  [("answer", Val.str "Error: No messages were provided in the request.")]

def insufficientText : String :=
  "I couldn't extract enough information from the provided URL."

def insufficientAnswer : Dict := [("answer", Val.str insufficientText)]

def noKeyAnswer : Dict :=
  [("answer", Val.str "Error: GROQ API key is not configured.")]

/-- The answer produced by the outer `except` block of `Rag.response`. -/
def errorAnswer (e : String) : Dict :=
  [("answer", Val.str ("I encountered an error while processing your request: " ++ e))]

/-! ### Rag.web_parsing (rag.py lines 76-136) -/

/-- `Rag.web_parsing`: one GET; on success a single Document whose metadata
starts with the source url followed by the library-extracted metadata; on a
transport failure a single placeholder Document carrying the fixed marker
text and the error string (the exception is absorbed, not propagated). -/
def web_parsing (env : Env) (url : String) : List Document :=
  match env.fetch url with
  | .ok text extra => [⟨text, ("source", url) :: extra⟩]
  | .transportErr e => [⟨failRetrieveText, [("source", url), ("error", e)]⟩]

/-! ### Rag.get_or_create_uuid (rag.py lines 189-226) -/

/-- Reading url_mapping.json: a missing file or a JSON decode error both
yield the empty mapping. -/
def loadUrlDict (s : St) : List (Nat × String) := s.urlFile.getD []

/-- The reverse lookup `{v: k for k, v in url_dict.items()}[url]`: a Python
dict comprehension keeps, for duplicate values, the entry appearing last in
insertion order. -/
def lookupReverse (d : List (Nat × String)) (url : String) : Option Nat :=
  (d.reverse.find? (fun kv => kv.2 == url)).map (fun kv => kv.1)

/-- `Rag.get_or_create_uuid`: return the existing id of `url` if present,
else draw a fresh uuid, append `{uuid: url}`, and persist the mapping. -/
def get_or_create_uuid (s : St) (url : String) : Nat × St :=
  let url_dict := loadUrlDict s
  match lookupReverse url_dict url with
  | some uuid => (uuid, s)
  | none =>
    let uuid := s.nextUuid
    (uuid, { s with urlFile := some (url_dict ++ [(uuid, url)]),
                    nextUuid := s.nextUuid + 1 })

/-! ### The chunker used by Rag.create_embeddings (rag.py lines 153-158)

Modelled from the spec: the splitting itself is performed by langchain's
RecursiveCharacterTextSplitter (chunk_size 1000, chunk_overlap 200), whose
implementation is not part of this repository.  The spec describes the
Chunker contract as a deterministic sliding window over the document text:
window length 1000 characters, step 800 (hence a 200-character overlap with
the previous window), windows emitted in left-to-right order, the last
window truncated to the remaining text, and no chunk for empty text.  The
fuel argument is only a structural termination measure; `splitText`
supplies fuel `t.length`, which always suffices. -/

def splitFuel : Nat → List Char → List (List Char)
  | 0, _ => []
  | fuel + 1, t =>
    if t.length ≤ 1000 then (if t.isEmpty then [] else [t])
    else t.take 1000 :: splitFuel fuel (t.drop 800)

/-- Modelled from the spec: the sliding-window chunker (see `splitFuel`). -/
def splitText (t : List Char) : List (List Char) := splitFuel t.length t

/-- Number of windows the sliding-window chunker emits for text length L. -/
def numChunks (L : Nat) : Nat := if L = 0 then 0 else max ((L - 200 + 799) / 800) 1

/-- The chunk-count formula asserted by the claim, in truncated natural
arithmetic: ceil(max(L-200,0)/800). -/
def claimCount (L : Nat) : Nat := (L - 200 + 799) / 800

/-! ### The retrieval chain of Rag.response (rag.py lines 287-316) -/

/-- The RunnableBranch of rag.py lines 304-310: with exactly one message
the retriever is invoked directly on that message's content (no LLM call);
otherwise the query-transform LLM rewrite runs first and its raw string
output is the search text.  Returns the retrieved documents (or the
exception the LLM call raised) together with the effect trace. -/
def query_transforming_retriever_chain (env : Env) (sid : Nat) (messages : List Msg) :
    Except String (List Document) × List Effect :=
  if messages.length == 1 then
    (.ok (env.retrieve sid ((messages.getLast?).getD ⟨"", ""⟩).content), [])
  else
    match env.rewrite messages with
    | .ok q => (.ok (env.retrieve sid q), [.llmRewrite])
    | .error e => (.error e, [.llmRewrite])

/-- The full conversational chain (rag.py lines 313-320):
RunnablePassthrough.assign(context = retriever chain).assign(answer =
document chain) applied to {"message": messages}; an exception from either
LLM call propagates out of the invoke. -/
def conversational_retrieval_chain (env : Env) (sid : Nat) (messages : List Msg) :
    Except String Dict × List Effect :=
  match query_transforming_retriever_chain env sid messages with
  | (.error e, fx) => (.error e, fx)
  | (.ok ctx, fx) =>
    match env.answerChain messages ctx with
    | .ok ans =>
      (.ok [("message", Val.msgs messages), ("context", Val.docs ctx),
            ("answer", Val.str ans)], fx ++ [.llmAnswer])
    | .error e => (.error e, fx ++ [.llmAnswer])

/-! ### Rag.response (rag.py lines 228-326) -/

/-- The tail of `Rag.response` from the GROQ-key check onwards (rag.py
lines 277-326): missing key yields the fixed configuration-error answer;
otherwise the chain is invoked and an exception it raises is caught by the
outer except block and rendered as `errorAnswer`. -/
def afterStore (env : Env) (s : St) (uuid : Nat) (p : RagPayload)
    (fx : List Effect) : Dict × St × List Effect :=
  match env.groq_api_key with
  | none => (noKeyAnswer, s, fx)
  | some _ =>
    match conversational_retrieval_chain env uuid p.message with
    | (.ok d, fx2) => (d, s, fx ++ fx2)
    | (.error e, fx2) => (errorAnswer e, s, fx ++ fx2)

/-- `Rag.response`: guards for empty url and empty message list; fetch;
insufficient-content guard (< 100 characters); identity resolution; load
the persisted vector store when its directory exists, else build and
persist a new one (an exception raised while building is re-raised by
`create_embeddings` and caught by the outer except block); GROQ-key check;
chain invocation.  Returns the answer dictionary, the final persistent
state, and the collaborator-call trace. -/
def response (env : Env) (s : St) (p : RagPayload) : Dict × St × List Effect :=
  if p.url = "" then (noUrlAnswer, s, [])
  else if p.message = [] then (noMessagesAnswer, s, [])
  else
    match (web_parsing env p.url).head? with
    | none => (insufficientAnswer, s, [Effect.fetch p.url])
    | some d =>
      if d.page_content.length < 100 then (insufficientAnswer, s, [Effect.fetch p.url])
      else
        let uuid := (get_or_create_uuid s p.url).1
        let s1 := (get_or_create_uuid s p.url).2
        if uuid ∈ s1.stores then
          afterStore env s1 uuid p [Effect.fetch p.url, Effect.loadStore uuid]
        else
          match env.embedErr with
          | some e => (errorAnswer e, s1, [Effect.fetch p.url])
          | none =>
            afterStore env { s1 with stores := uuid :: s1.stores } uuid p
              [Effect.fetch p.url, Effect.buildStore uuid]

/-! ### The HTTP boundary (main.py) -/

/-- Python's str.startswith on the two accepted schemes. -/
def urlStartsOk (url : String) : Bool :=
  "http://".toList.isPrefixOf url.toList || "https://".toList.isPrefixOf url.toList

/-- The pydantic field validators of `Payload` (main.py lines 67-84):
messages must be non-empty and have at most 20 entries; url must start with
http:// or https://.  Validation errors for both fields are collected. -/
def validationErrors (p : RawPayload) : List String :=
  (if p.messages = [] then ["Messages list cannot be empty"]
   else if 20 < p.messages.length then
     ["Too many messages in conversation history (max: 20)"]
   else [])
  ++ (if urlStartsOk p.url then [] else ["URL must start with http:// or https://"])

/-- Boundary results: a 422 validation response with a detail body, a 500
HTTPException response with a detail body, or a 200 success body
`{"answer": ..., "metadata": {"url": ...}}`. -/
inductive HttpResult where
  | clientError (status : Nat) (detail : String)
  | serverError (status : Nat) (detail : String)
  | ok (answer : Val) (metadataUrl : String)
deriving DecidableEq

/-- The `/response/` endpoint (main.py lines 137-196): validation failure
yields 422 with a detail body before the pipeline is invoked; otherwise the
pipeline result is checked for the "answer" key (missing or empty result
yields the 500 "Failed to generate a response" HTTPException) and rendered
as a success body. -/
def get_response (rag : RagPayload → Dict) (p : RawPayload) : HttpResult :=
  match validationErrors p with
  | [] =>
    let resp := rag { message := p.messages, url := p.url }
    match List.lookup "answer" resp with
    | none => .serverError 500 "Failed to generate a response"
    | some a => .ok a p.url
  | e :: es => .clientError 422 (String.intercalate "; " (e :: es))

/-! ### Helper lemmas: the identity store -/

/-- The identifiers of a persisted mapping. -/
def urlKeys (d : List (Nat × String)) : List Nat := d.map Prod.fst

/-- The URLs of a persisted mapping. -/
def urlVals (d : List (Nat × String)) : List String := d.map Prod.snd

/-- Well-formedness of the persisted state: the mapping's identifiers are
pairwise distinct and below the uuid supply counter. -/
def StInv (s : St) : Prop :=
  (urlKeys (loadUrlDict s)).Nodup ∧ ∀ k ∈ urlKeys (loadUrlDict s), k < s.nextUuid

theorem lookupReverse_append_self (d : List (Nat × String)) (n : Nat) (url : String) :
    lookupReverse (d ++ [(n, url)]) url = some n := by
  simp [lookupReverse, List.find?]

theorem lookupReverse_eq_none_iff (d : List (Nat × String)) (url : String) :
    lookupReverse d url = none ↔ url ∉ urlVals d := by
  simp only [lookupReverse, Option.map_eq_none', List.find?_eq_none, List.mem_reverse,
    urlVals, List.mem_map]
  constructor
  · rintro h ⟨kv, hkv, hv⟩
    exact h kv hkv (by simp [hv])
  · intro h kv hkv hbeq
    exact h ⟨kv, hkv, by simpa using hbeq⟩

theorem lookupReverse_mem_vals {d : List (Nat × String)} {url : String} {k : Nat}
    (h : lookupReverse d url = some k) : url ∈ urlVals d := by
  by_contra hmem
  rw [← lookupReverse_eq_none_iff] at hmem
  simp [hmem] at h

/-- C3: identity resolution is idempotent: a second call with the same URL,
on the state the first call persisted, returns the identifier the first
call returned and leaves the state (in particular the uuid supply)
untouched. -/
theorem get_or_create_uuid_idempotent (s : St) (url : String) :
    get_or_create_uuid (get_or_create_uuid s url).2 url =
      ((get_or_create_uuid s url).1, (get_or_create_uuid s url).2) := by
  rcases h : lookupReverse (loadUrlDict s) url with _ | k
  · have h1 : get_or_create_uuid s url =
        (s.nextUuid, { s with urlFile := some (loadUrlDict s ++ [(s.nextUuid, url)]),
                              nextUuid := s.nextUuid + 1 }) := by
      simp [get_or_create_uuid, h]
    rw [h1]
    simp [get_or_create_uuid, loadUrlDict, lookupReverse_append_self]
  · have h1 : get_or_create_uuid s url = (k, s) := by
      simp [get_or_create_uuid, h]
    rw [h1]
    simp [get_or_create_uuid, h]

/-- C4: a single call to get_or_create_uuid preserves the key invariant
(each identifier names exactly one URL) and mutates the persisted mapping
only by appending one fresh {identifier: url} entry when the URL was not
seen before; when the URL is already present the state is untouched. -/
theorem get_or_create_uuid_append_only (s : St) (url : String) (hinv : StInv s) :
    StInv (get_or_create_uuid s url).2
    ∧ ((url ∈ urlVals (loadUrlDict s) ∧ (get_or_create_uuid s url).2 = s)
       ∨ (url ∉ urlVals (loadUrlDict s)
          ∧ loadUrlDict (get_or_create_uuid s url).2
              = loadUrlDict s ++ [((get_or_create_uuid s url).1, url)]
          ∧ (get_or_create_uuid s url).1 ∉ urlKeys (loadUrlDict s))) := by
  rcases h : lookupReverse (loadUrlDict s) url with _ | k
  · have hnew : url ∉ urlVals (loadUrlDict s) := (lookupReverse_eq_none_iff _ _).mp h
    have hfresh : s.nextUuid ∉ urlKeys (loadUrlDict s) := by
      intro hmem
      exact absurd (hinv.2 _ hmem) (by omega)
    have h1 : (get_or_create_uuid s url).2 =
        { s with urlFile := some (loadUrlDict s ++ [(s.nextUuid, url)]),
                 nextUuid := s.nextUuid + 1 } := by
      simp [get_or_create_uuid, h]
    have h2 : (get_or_create_uuid s url).1 = s.nextUuid := by
      simp [get_or_create_uuid, h]
    constructor
    · rw [h1]
      have hload : loadUrlDict { s with
          urlFile := some (loadUrlDict s ++ [(s.nextUuid, url)]),
          nextUuid := s.nextUuid + 1 } = loadUrlDict s ++ [(s.nextUuid, url)] := rfl
      constructor
      · rw [hload]
        simp only [urlKeys, List.map_append, List.map_cons, List.map_nil]
        refine List.Nodup.append hinv.1 (List.nodup_singleton _) ?_
        intro x hx hx2
        simp only [List.mem_singleton] at hx2
        subst hx2
        exact hfresh hx
      · rw [hload]
        intro x hx
        simp only [urlKeys, List.map_append, List.map_cons, List.map_nil,
          List.mem_append, List.mem_singleton] at hx
        show x < s.nextUuid + 1
        rcases hx with hx | hx
        · have := hinv.2 x hx
          omega
        · omega
    · right
      refine ⟨hnew, ?_, ?_⟩
      · rw [h1, h2]; simp [loadUrlDict]
      · rw [h2]; exact hfresh
  · have h1 : (get_or_create_uuid s url).2 = s := by
      simp [get_or_create_uuid, h]
    refine ⟨by rw [h1]; exact hinv, Or.inl ⟨lookupReverse_mem_vals h, h1⟩⟩

/-- A state whose mapping file holds one entry, used to exercise theorems
with hypotheses on concrete inputs. -/
def c4st : St := { urlFile := some [(0, "https://a.com")], stores := [], nextUuid := 1 }

/-- C4 witness: the append-only theorem applied to a concrete one-entry
state and a fresh URL. -/
theorem get_or_create_uuid_append_only_witness :
    StInv (get_or_create_uuid c4st "https://b.com").2
    ∧ (("https://b.com" ∈ urlVals (loadUrlDict c4st)
          ∧ (get_or_create_uuid c4st "https://b.com").2 = c4st)
       ∨ ("https://b.com" ∉ urlVals (loadUrlDict c4st)
          ∧ loadUrlDict (get_or_create_uuid c4st "https://b.com").2
              = loadUrlDict c4st
                ++ [((get_or_create_uuid c4st "https://b.com").1, "https://b.com")]
          ∧ (get_or_create_uuid c4st "https://b.com").1 ∉ urlKeys (loadUrlDict c4st))) :=
  get_or_create_uuid_append_only c4st "https://b.com" ⟨by decide, by decide⟩

/-- C5: the retrieval chain is a two-branch decision on the conversation
length.  With exactly one message the retriever is called on that message's
content verbatim and the query-rewrite LLM is not invoked (no llmRewrite
effect); with two or more messages the rewrite LLM is invoked and, when it
returns text q, the retriever is searched with q itself. -/
theorem retriever_chain_two_branch (env : Env) (sid : Nat) (messages : List Msg) :
    (∀ m, messages = [m] →
      query_transforming_retriever_chain env sid messages =
        (.ok (env.retrieve sid m.content), []))
    ∧ (2 ≤ messages.length →
      Effect.llmRewrite ∈ (query_transforming_retriever_chain env sid messages).2
      ∧ ∀ q, env.rewrite messages = .ok q →
          (query_transforming_retriever_chain env sid messages).1 =
            .ok (env.retrieve sid q)) := by
  constructor
  · rintro m rfl
    simp [query_transforming_retriever_chain]
  · intro hlen
    have hne : messages.length ≠ 1 := by omega
    constructor
    · simp only [query_transforming_retriever_chain, beq_iff_eq, if_neg hne]
      rcases h : env.rewrite messages with e | q <;> simp
    · intro q hq
      simp [query_transforming_retriever_chain, hne, hq]

/-- A fetch oracle environment for concrete runs: every fetch succeeds with
a 100-character page, the rewrite LLM returns "q", the answer LLM returns
"ans". -/
def c1env : Env where
  fetch := fun _ => .ok (String.mk (List.replicate 100 'a')) []
  embedErr := none
  groq_api_key := some "k"
  rewrite := fun _ => .ok "q"
  retrieve := fun _ _ => []
  answerChain := fun _ _ => .ok "ans"

/-- A state in which the URL https://e.com already has identifier 0 and a
persisted vector store under that identifier. -/
def c1st : St := { urlFile := some [(0, "https://e.com")], stores := [0], nextUuid := 1 }

/-- A one-message payload asking about the already-indexed URL. -/
def c1payload : RagPayload := { message := [⟨"user", "q"⟩], url := "https://e.com" }

/-- C5 witness: the two-branch theorem applied to a one-message and a
two-message conversation against concrete oracles. -/
theorem retriever_chain_two_branch_witness :
    query_transforming_retriever_chain c1env 0 [⟨"user", "q"⟩] =
      (.ok (c1env.retrieve 0 "q"), [])
    ∧ Effect.llmRewrite ∈
        (query_transforming_retriever_chain c1env 0
          [⟨"user", "a"⟩, ⟨"assistant", "b"⟩]).2
    ∧ (query_transforming_retriever_chain c1env 0
          [⟨"user", "a"⟩, ⟨"assistant", "b"⟩]).1 = .ok (c1env.retrieve 0 "q") :=
  ⟨(retriever_chain_two_branch c1env 0 [⟨"user", "q"⟩]).1 ⟨"user", "q"⟩ rfl,
   ((retriever_chain_two_branch c1env 0 [⟨"user", "a"⟩, ⟨"assistant", "b"⟩]).2
      (by decide)).1,
   ((retriever_chain_two_branch c1env 0 [⟨"user", "a"⟩, ⟨"assistant", "b"⟩]).2
      (by decide)).2 "q" rfl⟩

/-! ### Helper lemmas: the chunker -/

theorem numChunks_le_1000 (L : Nat) (h1 : L ≠ 0) (h2 : L ≤ 1000) : numChunks L = 1 := by
  simp only [numChunks, if_neg h1]
  omega

theorem numChunks_rec (L : Nat) (h : 1000 < L) : numChunks L = numChunks (L - 800) + 1 := by
  simp only [numChunks, if_neg (show L ≠ 0 by omega), if_neg (show L - 800 ≠ 0 by omega)]
  omega

theorem numChunks_index_bound {L i : Nat} (h : i + 1 < numChunks L) :
    800 * i + 1001 ≤ L := by
  by_cases h0 : L = 0
  · simp [numChunks, h0] at h
  · simp only [numChunks, if_neg h0] at h
    omega

theorem splitFuel_closed : ∀ (fuel : Nat) (t : List Char), t.length ≤ 800 * fuel →
    splitFuel fuel t = (List.range (numChunks t.length)).map
      (fun i => (t.drop (800 * i)).take 1000) := by
  intro fuel
  induction fuel with
  | zero =>
    intro t ht
    have h0 : t = [] := List.eq_nil_of_length_eq_zero (by omega)
    subst h0
    simp [splitFuel, numChunks]
  | succ fuel ih =>
    intro t ht
    by_cases hle : t.length ≤ 1000
    · by_cases h0 : t = []
      · subst h0
        simp [splitFuel, numChunks]
      · have hL : t.length ≠ 0 := fun hl => h0 (List.eq_nil_of_length_eq_zero hl)
        rw [show splitFuel (fuel + 1) t =
              if t.length ≤ 1000 then (if t.isEmpty then [] else [t])
              else t.take 1000 :: splitFuel fuel (t.drop 800) from rfl]
        rw [if_pos hle, if_neg (fun hemp => h0 (List.isEmpty_iff.mp hemp))]
        rw [numChunks_le_1000 t.length hL hle]
        simp [List.range_succ, List.take_of_length_le hle]
    · push_neg at hle
      have hrec := ih (t.drop 800) (by simp only [List.length_drop]; omega)
      rw [show splitFuel (fuel + 1) t =
            if t.length ≤ 1000 then (if t.isEmpty then [] else [t])
            else t.take 1000 :: splitFuel fuel (t.drop 800) from rfl]
      rw [if_neg (by omega), hrec, List.length_drop,
        numChunks_rec t.length hle, List.range_succ_eq_map, List.map_cons, List.map_map]
      simp only [List.cons.injEq, List.map_inj_left, Function.comp_apply, List.drop_drop]
      constructor
      · simp
      · intro a ha
        rw [show 800 + 800 * a = 800 * (a + 1) by omega]

theorem splitText_closed (t : List Char) :
    splitText t = (List.range (numChunks t.length)).map
      (fun i => (t.drop (800 * i)).take 1000) :=
  splitFuel_closed t.length t (by omega)

/-- C2 counterexample: for a 100-character text the chunker emits one chunk
while the claimed count formula ceil(max(L-200,0)/800) yields zero. -/
theorem chunker_count_counterexample :
    ¬ (splitText (List.replicate 100 'a')).length = claimCount 100 := by decide

/-- C2 (amended): chunking is the deterministic sliding window with window
1000 and step 800: the i-th chunk is the window of the text at offset
800·i (so chunks appear in left-to-right order and the chunk count is
`numChunks`, which is ceil(max(L-200,0)/800) except that every non-empty
text of length at most 200 still yields one chunk); each chunk has at most
1000 characters; each pair of consecutive chunks overlaps in exactly 200
characters: every non-final chunk is a full 1000-character window whose
last 200 characters are the first 200 characters of the next chunk, and
the final (truncated) chunk is always longer than 200 characters. -/
theorem chunker_amended (t : List Char) :
    splitText t = (List.range (numChunks t.length)).map
        (fun i => (t.drop (800 * i)).take 1000)
    ∧ (splitText t).length = numChunks t.length
    ∧ (t.length = 0 → numChunks t.length = 0)
    ∧ (1 ≤ t.length → t.length ≤ 1000 → numChunks t.length = 1)
    ∧ (∀ c ∈ splitText t, c.length ≤ 1000)
    ∧ (∀ i, i + 1 < numChunks t.length →
        ((t.drop (800 * i)).take 1000).length = 1000
        ∧ 200 < ((t.drop (800 * (i + 1))).take 1000).length
        ∧ ((t.drop (800 * i)).take 1000).drop 800
            = ((t.drop (800 * (i + 1))).take 1000).take 200) := by
  refine ⟨splitText_closed t, ?_, ?_, ?_, ?_, ?_⟩
  · rw [splitText_closed t]
    simp
  · intro h
    simp [numChunks, h]
  · intro h1 h2
    exact numChunks_le_1000 t.length (by omega) h2
  · intro c hc
    rw [splitText_closed t] at hc
    obtain ⟨i, hi, rfl⟩ := List.mem_map.mp hc
    simp only [List.length_take]
    omega
  · intro i hi
    have hbound := numChunks_index_bound hi
    refine ⟨?_, ?_, ?_⟩
    · simp only [List.length_take, List.length_drop]
      omega
    · simp only [List.length_take, List.length_drop]
      omega
    · rw [List.drop_take, List.drop_drop, List.take_take]
      congr 2

/-- C2 witness: the amended theorem applied to concrete texts of lengths
900 and 1300, discharging the length and index hypotheses. -/
theorem chunker_amended_witness :
    numChunks (List.replicate 900 'a').length = 1
    ∧ ((List.replicate 1300 'a').take 1000).length ≤ 1000
    ∧ (((List.replicate 1300 'a').drop (800 * 0)).take 1000).drop 800
        = (((List.replicate 1300 'a').drop (800 * (0 + 1))).take 1000).take 200 :=
  ⟨(chunker_amended (List.replicate 900 'a')).2.2.2.1 (by decide) (by decide),
   (chunker_amended (List.replicate 1300 'a')).2.2.2.2.1
     ((List.replicate 1300 'a').take 1000) (by decide),
   ((chunker_amended (List.replicate 1300 'a')).2.2.2.2.2 0 (by decide)).2.2⟩

/-! ### Helper lemmas: reductions of response and the chain effects -/

theorem retriever_chain_effects (env : Env) (sid : Nat) (msgs : List Msg) :
    ∀ e ∈ (query_transforming_retriever_chain env sid msgs).2,
      e = Effect.llmRewrite := by
  intro e he
  unfold query_transforming_retriever_chain at he
  by_cases h : (msgs.length == 1) = true
  · rw [if_pos h] at he
    simp at he
  · rw [if_neg h] at he
    rcases hr : env.rewrite msgs with e2 | q <;> rw [hr] at he <;> simpa using he

theorem chain_effects (env : Env) (sid : Nat) (msgs : List Msg) :
    ∀ e ∈ (conversational_retrieval_chain env sid msgs).2,
      e = Effect.llmRewrite ∨ e = Effect.llmAnswer := by
  intro e he
  unfold conversational_retrieval_chain at he
  rcases hq : query_transforming_retriever_chain env sid msgs with ⟨r, fx⟩
  rw [hq] at he
  have hfx : ∀ x ∈ fx, x = Effect.llmRewrite := by
    intro x hx
    have h := retriever_chain_effects env sid msgs
    rw [hq] at h
    exact h x hx
  rcases r with er | ctx
  · exact Or.inl (hfx e (by simpa using he))
  · dsimp only at he
    rcases ha : env.answerChain msgs ctx with e2 | ans <;> rw [ha] at he <;>
      dsimp only at he <;>
      simp only [List.mem_append, List.mem_singleton] at he <;>
      rcases he with he | he
    · exact Or.inl (hfx e he)
    · exact Or.inr he
    · exact Or.inl (hfx e he)
    · exact Or.inr he

theorem response_load (env : Env) (s : St) (p : RagPayload) (txt : String)
    (extra : List (String × String))
    (hu : p.url ≠ "") (hm : p.message ≠ [])
    (hf : env.fetch p.url = .ok txt extra) (hlen : 100 ≤ txt.length)
    (hstore : (get_or_create_uuid s p.url).1 ∈ (get_or_create_uuid s p.url).2.stores) :
    response env s p =
      afterStore env (get_or_create_uuid s p.url).2 (get_or_create_uuid s p.url).1 p
        [Effect.fetch p.url, Effect.loadStore (get_or_create_uuid s p.url).1] := by
  have hlen' : ¬ txt.length < 100 := by omega
  simp [response, web_parsing, hf, hu, hm, hlen', hstore]

theorem response_build (env : Env) (s : St) (p : RagPayload) (txt : String)
    (extra : List (String × String))
    (hu : p.url ≠ "") (hm : p.message ≠ [])
    (hf : env.fetch p.url = .ok txt extra) (hlen : 100 ≤ txt.length)
    (hstore : (get_or_create_uuid s p.url).1 ∉ (get_or_create_uuid s p.url).2.stores)
    (hemb : env.embedErr = none) :
    response env s p =
      afterStore env
        { (get_or_create_uuid s p.url).2 with
            stores := (get_or_create_uuid s p.url).1
              :: (get_or_create_uuid s p.url).2.stores }
        (get_or_create_uuid s p.url).1 p
        [Effect.fetch p.url, Effect.buildStore (get_or_create_uuid s p.url).1] := by
  have hlen' : ¬ txt.length < 100 := by omega
  simp [response, web_parsing, hf, hu, hm, hlen', hstore, hemb]

theorem response_embed_error (env : Env) (s : St) (p : RagPayload) (txt : String)
    (extra : List (String × String)) (e : String)
    (hu : p.url ≠ "") (hm : p.message ≠ [])
    (hf : env.fetch p.url = .ok txt extra) (hlen : 100 ≤ txt.length)
    (hstore : (get_or_create_uuid s p.url).1 ∉ (get_or_create_uuid s p.url).2.stores)
    (hemb : env.embedErr = some e) :
    response env s p = (errorAnswer e, (get_or_create_uuid s p.url).2,
      [Effect.fetch p.url]) := by
  have hlen' : ¬ txt.length < 100 := by omega
  simp [response, web_parsing, hf, hu, hm, hlen', hstore, hemb]

theorem afterStore_state (env : Env) (s : St) (u : Nat) (p : RagPayload)
    (fx : List Effect) : (afterStore env s u p fx).2.1 = s := by
  unfold afterStore
  rcases env.groq_api_key with _ | k
  · rfl
  · rcases conversational_retrieval_chain env u p.message with ⟨r, fx2⟩
    rcases r with er | d <;> rfl

theorem afterStore_mem_fx (env : Env) (s : St) (u : Nat) (p : RagPayload)
    (fx : List Effect) (e : Effect) (he : e ∈ fx) :
    e ∈ (afterStore env s u p fx).2.2 := by
  unfold afterStore
  rcases env.groq_api_key with _ | k
  · exact he
  · rcases conversational_retrieval_chain env u p.message with ⟨r, fx2⟩
    rcases r with er | d <;> exact List.mem_append_left _ he

theorem afterStore_effects (env : Env) (s : St) (u : Nat) (p : RagPayload)
    (fx : List Effect) :
    ∀ e ∈ (afterStore env s u p fx).2.2,
      e ∈ fx ∨ e = Effect.llmRewrite ∨ e = Effect.llmAnswer := by
  unfold afterStore
  rcases env.groq_api_key with _ | k
  · intro e he
    exact Or.inl he
  · rcases hc : conversational_retrieval_chain env u p.message with ⟨r, fx2⟩
    have h2 := chain_effects env u p.message
    rw [hc] at h2
    rcases r with er | d <;> intro e he <;> dsimp at he <;>
        rcases List.mem_append.mp he with h | h
    · exact Or.inl h
    · exact Or.inr (h2 e h)
    · exact Or.inl h
    · exact Or.inr (h2 e h)

/-- C1 counterexample: a state in which the payload's URL already has an
identifier with a persisted index (first conjunct), yet running the
pipeline on a question about that URL still performs a network fetch of
the URL (second conjunct) — the fetch happens before the persisted-index
check in Rag.response. -/
theorem cache_hit_still_fetches_counterexample :
    (get_or_create_uuid c1st c1payload.url).1 ∈ c1st.stores
    ∧ Effect.fetch c1payload.url ∈ (response c1env c1st c1payload).2.2 := by decide

/-- C1 (amended): for a URL whose index is already persisted under its
resolved identifier, a subsequent question reuses the persisted index —
the index is loaded, no index is built or re-embedded, and the persisted
state is left exactly as identity resolution left it — but the URL is
still fetched over the network once per request: the cache eliminates the
re-embedding cost only, not the fetch. -/
theorem index_reuse_no_rebuild (env : Env) (s : St) (p : RagPayload)
    (txt : String) (extra : List (String × String))
    (hu : p.url ≠ "") (hm : p.message ≠ [])
    (hf : env.fetch p.url = .ok txt extra) (hlen : 100 ≤ txt.length)
    (hstore : (get_or_create_uuid s p.url).1 ∈ (get_or_create_uuid s p.url).2.stores) :
    Effect.fetch p.url ∈ (response env s p).2.2
    ∧ Effect.loadStore (get_or_create_uuid s p.url).1 ∈ (response env s p).2.2
    ∧ (∀ v, Effect.buildStore v ∉ (response env s p).2.2)
    ∧ (response env s p).2.1 = (get_or_create_uuid s p.url).2 := by
  rw [response_load env s p txt extra hu hm hf hlen hstore]
  refine ⟨afterStore_mem_fx _ _ _ _ _ _ (by simp), afterStore_mem_fx _ _ _ _ _ _ (by simp),
    ?_, afterStore_state _ _ _ _ _⟩
  intro v hv
  rcases afterStore_effects _ _ _ _ _ _ hv with h | h | h
  · simp at h
  · simp at h
  · simp at h

/-- C1 witness: the amended theorem applied to the concrete cache-hit run. -/
theorem index_reuse_no_rebuild_witness :
    Effect.loadStore (get_or_create_uuid c1st c1payload.url).1
      ∈ (response c1env c1st c1payload).2.2 :=
  (index_reuse_no_rebuild c1env c1st c1payload (String.mk (List.replicate 100 'a')) []
    (by decide) (by decide) rfl (by decide) (by decide)).2.1

/-! ### Helper lemmas: boundary validation -/

theorem validation_ok_facts (raw : RawPayload) (h : validationErrors raw = []) :
    raw.messages ≠ [] ∧ raw.messages.length ≤ 20 ∧ urlStartsOk raw.url = true := by
  by_cases h1 : raw.messages = []
  · simp [validationErrors, h1] at h
  · by_cases h2 : 20 < raw.messages.length
    · simp [validationErrors, h1, h2] at h
    · by_cases h3 : urlStartsOk raw.url
      · exact ⟨h1, by omega, h3⟩
      · simp [validationErrors, h1, h2, h3] at h

theorem urlStartsOk_ne_empty {url : String} (h : urlStartsOk url = true) :
    url ≠ "" := by
  intro he
  subst he
  exact absurd h (by decide)

/-- C6: a request whose messages list is empty or longer than 20 entries,
or whose url does not start with http:// or https://, is answered at the
boundary with the 422 client-error and a detail body, and the pipeline
collaborator is never consulted: the boundary result is the same whatever
pipeline function is plugged in. -/
theorem boundary_validation_rejects (raw : RawPayload)
    (h : raw.messages = [] ∨ 20 < raw.messages.length ∨ urlStartsOk raw.url = false) :
    validationErrors raw ≠ []
    ∧ ∀ rag : RagPayload → Dict,
        get_response rag raw =
          .clientError 422 (String.intercalate "; " (validationErrors raw)) := by
  have hne : validationErrors raw ≠ [] := by
    rcases h with h | h | h
    · simp [validationErrors, h]
    · by_cases h0 : raw.messages = []
      · simp [validationErrors, h0]
      · simp [validationErrors, h0, h]
    · simp [validationErrors, h]
  refine ⟨hne, fun rag => ?_⟩
  unfold get_response
  rcases hv : validationErrors raw with _ | ⟨e, es⟩
  · exact absurd hv hne
  · rfl

/-- C6 witness: an empty conversation is rejected with 422 regardless of
the pipeline; here the pipeline function is one the boundary could never
render as an answer. -/
theorem boundary_validation_rejects_witness :
    get_response (fun _ => []) { messages := ([] : List Msg), url := "https://a.com" } =
      .clientError 422 "Messages list cannot be empty" :=
  ((boundary_validation_rejects
      { messages := ([] : List Msg), url := "https://a.com" } (Or.inl rfl)).2
    (fun _ => [])).trans (by decide)

/-- C7: when the fetch fails at transport level, web_parsing does not
raise: it returns the placeholder document whose text is the fixed
"failed to retrieve" marker and whose metadata records the error string;
the pipeline then answers with the fixed insufficient-information message,
and the HTTP boundary renders that as a 200-style success body rather than
a transport error. -/
theorem fetch_failure_soft_answer (env : Env) (s : St) (raw : RawPayload) (e : String)
    (hf : env.fetch raw.url = .transportErr e)
    (hval : validationErrors raw = []) :
    web_parsing env raw.url =
      [⟨failRetrieveText, [("source", raw.url), ("error", e)]⟩]
    ∧ (response env s { message := raw.messages, url := raw.url }).1 = insufficientAnswer
    ∧ get_response (fun q => (response env s q).1) raw
        = .ok (Val.str insufficientText) raw.url := by
  obtain ⟨hm, hlen20, hurl⟩ := validation_ok_facts raw hval
  have hu : raw.url ≠ "" := urlStartsOk_ne_empty hurl
  have hw : web_parsing env raw.url =
      [⟨failRetrieveText, [("source", raw.url), ("error", e)]⟩] := by
    simp [web_parsing, hf]
  have hr : (response env s { message := raw.messages, url := raw.url }).1
      = insufficientAnswer := by
    have hflen : failRetrieveText.length < 100 := by decide
    simp [response, web_parsing, hf, hu, hm, hflen]
  refine ⟨hw, hr, ?_⟩
  simp only [get_response, hval]
  rw [hr]
  rfl

/-- A fetch oracle that always fails at transport level. -/
def c7env : Env := { c1env with fetch := fun _ => .transportErr "boom" }

/-- A well-formed raw request for an unreachable URL. -/
def c7raw : RawPayload := { messages := [⟨"user", "hi"⟩], url := "https://down.example" }

/-- C7 witness: the end-to-end boundary call on a concrete failing fetch
returns the success body carrying the insufficient-information answer. -/
theorem fetch_failure_soft_answer_witness :
    get_response (fun q => (response c7env c4st q).1) c7raw
      = .ok (Val.str insufficientText) c7raw.url :=
  (fetch_failure_soft_answer c7env c4st c7raw "boom" rfl (by decide)).2.2

/-! ### Helper lemmas: afterStore outcomes -/

theorem afterStore_no_key (env : Env) (s : St) (u : Nat) (p : RagPayload)
    (fx : List Effect) (hkey : env.groq_api_key = none) :
    afterStore env s u p fx = (noKeyAnswer, s, fx) := by
  unfold afterStore
  rw [hkey]

theorem afterStore_chain_error (env : Env) (s : St) (u : Nat) (p : RagPayload)
    (fx : List Effect) (e k : String)
    (hkey : env.groq_api_key = some k)
    (hchain : (conversational_retrieval_chain env u p.message).1 = .error e) :
    (afterStore env s u p fx).1 = errorAnswer e := by
  unfold afterStore
  rw [hkey]
  rcases hc : conversational_retrieval_chain env u p.message with ⟨r, fx2⟩
  rw [hc] at hchain
  dsimp at hchain
  subst hchain
  rfl

theorem chain_ok_has_answer (env : Env) (sid : Nat) (msgs : List Msg)
    (d : Dict) (fx : List Effect)
    (h : conversational_retrieval_chain env sid msgs = (.ok d, fx)) :
    (List.lookup "answer" d).isSome = true := by
  unfold conversational_retrieval_chain at h
  rcases hq : query_transforming_retriever_chain env sid msgs with ⟨r, fx1⟩
  rw [hq] at h
  rcases r with er | ctx
  · simp at h
  · dsimp only at h
    rcases ha : env.answerChain msgs ctx with e2 | ans <;> rw [ha] at h
    · simp at h
    · have hd : Except.ok (ε := String) [("message", Val.msgs msgs), ("context", Val.docs ctx),
          ("answer", Val.str ans)] = Except.ok d := congrArg Prod.fst h
      have hd2 : d = [("message", Val.msgs msgs), ("context", Val.docs ctx),
          ("answer", Val.str ans)] := by
        cases hd
        rfl
      rw [hd2]
      rfl

theorem afterStore_has_answer (env : Env) (s : St) (u : Nat) (p : RagPayload)
    (fx : List Effect) :
    (List.lookup "answer" (afterStore env s u p fx).1).isSome = true := by
  unfold afterStore
  rcases env.groq_api_key with _ | k
  · rfl
  · rcases hc : conversational_retrieval_chain env u p.message with ⟨r, fx2⟩
    rcases r with er | d
    · rfl
    · exact chain_ok_has_answer env u p.message d fx2 hc

/-- Every branch of Rag.response yields a dictionary carrying the
"answer" key. -/
theorem response_has_answer (env : Env) (s : St) (p : RagPayload) :
    (List.lookup "answer" (response env s p).1).isSome = true := by
  by_cases hu : p.url = ""
  · have h : response env s p = (noUrlAnswer, s, []) := by simp [response, hu]
    rw [h]
    rfl
  · by_cases hm : p.message = []
    · have h : response env s p = (noMessagesAnswer, s, []) := by simp [response, hu, hm]
      rw [h]
      rfl
    · rcases hfetch : env.fetch p.url with ⟨txt, extra⟩ | ⟨e⟩
      · by_cases hlen : txt.length < 100
        · have h : (response env s p).1 = insufficientAnswer := by
            simp [response, web_parsing, hfetch, hu, hm, hlen]
          rw [h]
          rfl
        · by_cases hstore :
              (get_or_create_uuid s p.url).1 ∈ (get_or_create_uuid s p.url).2.stores
          · rw [response_load env s p txt extra hu hm hfetch (by omega) hstore]
            exact afterStore_has_answer env _ _ p _
          · rcases hemb : env.embedErr with _ | e2
            · rw [response_build env s p txt extra hu hm hfetch (by omega) hstore hemb]
              exact afterStore_has_answer env _ _ p _
            · rw [response_embed_error env s p txt extra e2 hu hm hfetch (by omega)
                hstore hemb]
              rfl
      · have hflen : failRetrieveText.length < 100 := by decide
        have h : (response env s p).1 = insufficientAnswer := by
          simp [response, web_parsing, hfetch, hu, hm, hflen]
        rw [h]
        rfl

/-- C8: the pipeline's external contract never throws.  Every return of
Rag.response is a value: an empty url or an empty message list returns the
fixed user-facing error answers without touching state; an exception
raised while building the embedding index is caught and rendered as the
textual error answer; and an exception raised by the LLM calls during
retrieval or synthesis is caught and rendered as the textual error
answer. -/
theorem response_never_throws (env : Env) (s : St) (p : RagPayload) :
    (p.url = "" → response env s p = (noUrlAnswer, s, []))
    ∧ (p.url ≠ "" → p.message = [] → response env s p = (noMessagesAnswer, s, []))
    ∧ (∀ txt extra e, p.url ≠ "" → p.message ≠ [] →
        env.fetch p.url = .ok txt extra → 100 ≤ txt.length →
        (get_or_create_uuid s p.url).1 ∉ (get_or_create_uuid s p.url).2.stores →
        env.embedErr = some e →
        (response env s p).1 = errorAnswer e)
    ∧ (∀ txt extra e k, p.url ≠ "" → p.message ≠ [] →
        env.fetch p.url = .ok txt extra → 100 ≤ txt.length →
        env.embedErr = none → env.groq_api_key = some k →
        (conversational_retrieval_chain env (get_or_create_uuid s p.url).1 p.message).1
          = .error e →
        (response env s p).1 = errorAnswer e) := by
  refine ⟨?_, ?_, ?_, ?_⟩
  · intro h
    simp [response, h]
  · intro hu hm
    simp [response, hu, hm]
  · intro txt extra e hu hm hf hlen hstore hemb
    rw [response_embed_error env s p txt extra e hu hm hf hlen hstore hemb]
  · intro txt extra e k hu hm hf hlen hemb hkey hchain
    by_cases hstore :
        (get_or_create_uuid s p.url).1 ∈ (get_or_create_uuid s p.url).2.stores
    · rw [response_load env s p txt extra hu hm hf hlen hstore]
      exact afterStore_chain_error env _ _ p _ e k hkey hchain
    · rw [response_build env s p txt extra hu hm hf hlen hstore hemb]
      exact afterStore_chain_error env _ _ p _ e k hkey hchain

/-- An environment whose answer-synthesis LLM call raises. -/
def c8env : Env := { c1env with answerChain := fun _ _ => .error "boom" }

/-- C8 witness: the guard branch and the caught-LLM-exception branch at
concrete inputs. -/
theorem response_never_throws_witness :
    response c8env c4st { message := [⟨"user", "q"⟩], url := "" } = (noUrlAnswer, c4st, [])
    ∧ (response c8env c1st c1payload).1 = errorAnswer "boom" :=
  ⟨(response_never_throws c8env c4st { message := [⟨"user", "q"⟩], url := "" }).1 rfl,
   (response_never_throws c8env c1st c1payload).2.2.2
     (String.mk (List.replicate 100 'a')) [] "boom" "k"
     (by decide) (by decide) rfl (by decide) rfl rfl rfl⟩

/-- An environment with no GROQ credential configured. -/
def c9env : Env := { c1env with groq_api_key := none }

/-- C9: with the guards passed and no GROQ credential configured, the
pipeline returns the fixed configuration-error answer (not an exception),
and the check runs only after identity resolution and index load/build:
the final state still records the resolved identifier with a persisted
store and the unchanged mapping file, the trace shows the load or build,
and no LLM call was made. -/
theorem missing_key_after_cache (env : Env) (s : St) (p : RagPayload)
    (txt : String) (extra : List (String × String))
    (hu : p.url ≠ "") (hm : p.message ≠ [])
    (hf : env.fetch p.url = .ok txt extra) (hlen : 100 ≤ txt.length)
    (hkey : env.groq_api_key = none) (hemb : env.embedErr = none) :
    (response env s p).1 = noKeyAnswer
    ∧ (get_or_create_uuid s p.url).1 ∈ (response env s p).2.1.stores
    ∧ (response env s p).2.1.urlFile = (get_or_create_uuid s p.url).2.urlFile
    ∧ (Effect.loadStore (get_or_create_uuid s p.url).1 ∈ (response env s p).2.2
       ∨ Effect.buildStore (get_or_create_uuid s p.url).1 ∈ (response env s p).2.2)
    ∧ Effect.llmRewrite ∉ (response env s p).2.2
    ∧ Effect.llmAnswer ∉ (response env s p).2.2 := by
  by_cases hstore :
      (get_or_create_uuid s p.url).1 ∈ (get_or_create_uuid s p.url).2.stores
  · rw [response_load env s p txt extra hu hm hf hlen hstore,
      afterStore_no_key env _ _ p _ hkey]
    exact ⟨rfl, hstore, rfl, Or.inl (by simp), by simp, by simp⟩
  · rw [response_build env s p txt extra hu hm hf hlen hstore hemb,
      afterStore_no_key env _ _ p _ hkey]
    exact ⟨rfl, by simp, rfl, Or.inr (by simp), by simp, by simp⟩

/-- C9 witness: the missing-credential run on the concrete cache-hit
state. -/
theorem missing_key_after_cache_witness :
    (response c9env c1st c1payload).1 = noKeyAnswer :=
  (missing_key_after_cache c9env c1st c1payload (String.mk (List.replicate 100 'a')) []
    (by decide) (by decide) rfl (by decide) rfl rfl).1

/-- C10: every value Rag.response returns, on every code path, is a
dictionary containing the "answer" key; consequently the boundary's
fallback branch raising the 500 "Failed to generate a response" error when
that key is missing can never fire when the boundary is wired to the
pipeline. -/
theorem answer_key_always_present (env : Env) (s : St) :
    (∀ p, (List.lookup "answer" (response env s p).1).isSome = true)
    ∧ ∀ raw, get_response (fun q => (response env s q).1) raw
        ≠ HttpResult.serverError 500 "Failed to generate a response" := by
  refine ⟨fun p => response_has_answer env s p, fun raw => ?_⟩
  rcases hv : validationErrors raw with _ | ⟨e, es⟩
  · simp only [get_response, hv]
    have h := response_has_answer env s { message := raw.messages, url := raw.url }
    obtain ⟨a, ha⟩ := Option.isSome_iff_exists.mp h
    rw [ha]
    simp
  · simp only [get_response, hv]
    simp

end Rag
